import Mathlib

/-
Verification of the CIFAR federated-learning baseline utilities
(flwr_baselines, adaptive_federated_optimization/cifar/utils.py, in the
experiments and publications module variants).

Shallow embedding conventions:
  - Python dicts built from distinct literal keys are association lists
    (List (String × v)) in insertion order.
  - Python float values are never computed with in this code (they are only
    stored in configs and string-formatted), so a float is represented by its
    observable encodings: str(x) and the two-decimal format of x.
  - Filesystem paths are lists of path components; torch.save and mkdir are
    reified as a list of emitted save operations.
  - Tensor arithmetic (forward pass, cross-entropy) is the external compute
    engine; it enters as explicit function parameters (net, criterion), while
    everything this repository computes itself (argmax bookkeeping, counters,
    the division, dict/zip/path construction) is embedded concretely.
  - A Python call that raises (ZeroDivisionError, strict-load error,
    tuple-unpacking error) is an Option/none result.
-/

/-- A Python float as observed by this code: no arithmetic is ever performed
on the float values handled here (learning rates, Dirichlet concentrations);
they are only stored and string-formatted. pyStr is Python str(x) and fmt2f
is the two-decimal fixed-point format of x. -/
structure PyFloat where
  pyStr : String
  fmt2f : String
deriving DecidableEq

/-- The Python float literal 0.01: str(0.01) is the string 0.01 and its
two-decimal format is also 0.01. -/
def lrPoint01 : PyFloat := ⟨"0.01", "0.01"⟩

/-- The Python float literal 0.5: str(0.5) is 0.5 and its two-decimal
format is 0.50. -/
def lrHalf : PyFloat := ⟨"0.5", "0.50"⟩

/-- A Python scalar stored in a fit-config mapping (flwr.common.typing.Scalar
as used here): a native int, a native float, or a string. -/
inductive Scalar where
  | int : Int → Scalar
  | str : String → Scalar
  | float : PyFloat → Scalar
deriving DecidableEq

/-- Python str() on a config scalar: ints print as decimal integers, floats
by their observable str encoding, strings as themselves. -/
def Scalar.pyStr : Scalar → String
  | Scalar.int n => toString n
  | Scalar.str s => s
  | Scalar.float f => f.pyStr

/-- The inner closure on_fit_config of gen_on_fit_config_fn
(publications/adaptive_federated_optimization/cifar/utils.py lines 137-145):
builds the per-round config dict with native-typed scalar values. -/
def on_fit_config (epochs_per_round : Int) (batch_size : Int)
    (client_learning_rate : PyFloat) (rnd : Int) : List (String × Scalar) :=
  [ ("epoch_global", Scalar.int rnd),
    ("epochs", Scalar.int epochs_per_round),
    ("batch_size", Scalar.int batch_size),
    ("client_learning_rate", Scalar.float client_learning_rate) ]

/-- gen_on_fit_config_fn (publications utils.py lines 134-147): returns the
on_fit_config closure over the three hyperparameters. -/
def gen_on_fit_config_fn (epochs_per_round : Int) (batch_size : Int)
    (client_learning_rate : PyFloat) : Int → List (String × Scalar) :=
  fun rnd => on_fit_config epochs_per_round batch_size client_learning_rate rnd

/-- The inner closure fit_config of gen_fit_config_fn
(experiments/adaptive_federated_optimization/cifar/utils.py lines 167-175):
builds the per-round config dict with every value passed through str(). -/
def fit_config (epochs_per_round : Int) (batch_size : Int)
    (client_learning_rate : PyFloat) (rnd : Int) : List (String × Scalar) :=
  [ ("epoch_global", Scalar.str (toString rnd)),
    ("epochs", Scalar.str (toString epochs_per_round)),
    ("batch_size", Scalar.str (toString batch_size)),
    ("client_learning_rate", Scalar.str client_learning_rate.pyStr) ]

/-- gen_fit_config_fn (experiments utils.py lines 164-175): the body defines
the local function fit_config and then falls off the end without a return
statement, so the Python function returns None; the closure is never handed
to the caller. -/
def gen_fit_config_fn (epochs_per_round : Int) (batch_size : Int)
    (client_learning_rate : PyFloat) : Option (Int → List (String × Scalar)) :=
  none

/-- First index of the maximum entry of a logits row, as torch.max(outputs, 1)
computes the per-row prediction; ties resolve to the first maximal index. A
net output row always has num_classes entries, so the empty case (returning 0
here) is never exercised. -/
def argmax (l : List ℚ) : Nat :=
  (l.enum.foldl (fun best q => if best.2 < q.2 then q else best) (0, l.headD 0)).1

/-- test (publications utils.py lines 117-131; the experiments variant lines
87-101 is textually identical): one pass over the loader with gradients
disabled, accumulating (correct, total, loss); the final division
correct/total raises ZeroDivisionError when total is zero, modelled as none.
A batch is a list of (image, label) samples; net gives the logits row of one
image and criterion the summed-in batch cross-entropy (both belong to the
external compute engine and are parameters of the embedding). -/
def test {I : Type} (net : I → List ℚ)
    (criterion : List (List ℚ) → List Nat → ℚ)
    (testloader : List (List (I × Nat))) : Option (ℚ × ℚ) :=
  let r := testloader.foldl
    (fun (acc : Nat × Nat × ℚ) data =>
      let images := data.map Prod.fst
      let labels := data.map Prod.snd
      let outputs := images.map net
      let predicted := outputs.map argmax
      (acc.1 + (predicted.zip labels).countP (fun q => q.1 == q.2),
        acc.2.1 + labels.length,
        acc.2.2 + criterion outputs labels))
    (0, 0, 0)
  if r.2.1 = 0 then none else some (r.2.2, (r.1 : ℚ) / (r.2.1 : ℚ))

/-- Number of samples of one batch whose predicted class (argmax of the net's
logits) equals their label. -/
def batchCorrect {I : Type} (net : I → List ℚ) (b : List (I × Nat)) : Nat :=
  b.countP (fun s => argmax (net s.1) == s.2)

/-- The criterion value of one batch: the batch's outputs against its labels. -/
def batchLoss {I : Type} (net : I → List ℚ)
    (criterion : List (List ℚ) → List Nat → ℚ) (b : List (I × Nat)) : ℚ :=
  criterion ((b.map Prod.fst).map net) (b.map Prod.snd)

/-- Total number of samples a loader yields. -/
def loaderTotal {I : Type} (testloader : List (List (I × Nat))) : Nat :=
  (testloader.map List.length).sum

/-- Total number of correctly predicted samples over a whole loader. -/
def loaderCorrect {I : Type} (net : I → List ℚ)
    (testloader : List (List (I × Nat))) : Nat :=
  (testloader.map (batchCorrect net)).sum

/-- Sum of the per-batch criterion values over a whole loader. -/
def loaderLoss {I : Type} (net : I → List ℚ)
    (criterion : List (List ℚ) → List Nat → ℚ)
    (testloader : List (List (I × Nat))) : ℚ :=
  (testloader.map (batchLoss net criterion)).sum

lemma test_batch_correct_eq {I : Type} (net : I → List ℚ) (b : List (I × Nat)) :
    ((((b.map Prod.fst).map net).map argmax).zip (b.map Prod.snd)).countP
        (fun q => q.1 == q.2)
      = batchCorrect net b := by
  rw [List.map_map, List.map_map, List.zip_map', List.countP_map]
  rfl

lemma test_foldl_spec {I : Type} (net : I → List ℚ)
    (criterion : List (List ℚ) → List Nat → ℚ) :
    ∀ (testloader : List (List (I × Nat))) (c t : Nat) (l : ℚ),
      testloader.foldl
        (fun (acc : Nat × Nat × ℚ) data =>
          let images := data.map Prod.fst
          let labels := data.map Prod.snd
          let outputs := images.map net
          let predicted := outputs.map argmax
          (acc.1 + (predicted.zip labels).countP (fun q => q.1 == q.2),
            acc.2.1 + labels.length,
            acc.2.2 + criterion outputs labels))
        (c, t, l)
      = (c + loaderCorrect net testloader,
          t + loaderTotal testloader,
          l + loaderLoss net criterion testloader)
  | [], c, t, l => by
      simp [loaderCorrect, loaderTotal, loaderLoss]
  | b :: bs, c, t, l => by
      simp only [List.foldl_cons]
      rw [test_foldl_spec net criterion bs]
      simp only [loaderCorrect, loaderTotal, loaderLoss, List.map_cons,
        List.sum_cons, test_batch_correct_eq, List.length_map, batchLoss,
        Prod.mk.injEq]
      refine ⟨by omega, by omega, by ring⟩

/-- General closed form of test on a loader with at least one sample: the
returned pair is the summed loss and the fraction correct over total. -/
lemma test_spec {I : Type} (net : I → List ℚ)
    (criterion : List (List ℚ) → List Nat → ℚ)
    (testloader : List (List (I × Nat))) (h : 0 < loaderTotal testloader) :
    test net criterion testloader
      = some (loaderLoss net criterion testloader,
          (loaderCorrect net testloader : ℚ) / (loaderTotal testloader : ℚ)) := by
  unfold test
  rw [test_foldl_spec net criterion testloader 0 0 0]
  simp [Nat.pos_iff_ne_zero.mp h]

/-- test on a loader whose total sample count is zero reaches the division
correct/total with total zero: the Python call raises ZeroDivisionError. -/
lemma test_total_zero {I : Type} (net : I → List ℚ)
    (criterion : List (List ℚ) → List Nat → ℚ)
    (testloader : List (List (I × Nat))) (h : loaderTotal testloader = 0) :
    test net criterion testloader = none := by
  unfold test
  rw [test_foldl_spec net criterion testloader 0 0 0]
  simp [h]

/-- train (publications utils.py lines 96-114; the experiments variant lines
66-84 is textually identical): epochs full passes over the loader. The whole
per-batch body (zero_grad, forward, cross-entropy, backward, SGD-with-momentum
step) is the external compute engine acting on the mutable torch state (net
parameters plus optimizer momentum buffers); it enters as the step parameter. -/
def train {S B : Type} (step : S → B → S) (trainloader : List B)
    (epochs : Nat) (net : S) : S :=
  (List.range epochs).foldl (fun s _ => trainloader.foldl step s) net

lemma train_succ {S B : Type} (step : S → B → S) (trainloader : List B)
    (n : Nat) (net : S) :
    train step trainloader (n + 1) net
      = trainloader.foldl step (train step trainloader n net) := by
  unfold train
  rw [List.range_succ, List.foldl_append]
  rfl

lemma foldl_count_steps {S B : Type} (step : S → B → S) :
    ∀ (l : List B) (p : S × Nat),
      l.foldl (fun q b => (step q.1 b, q.2 + 1)) p
        = (l.foldl step p.1, p.2 + l.length)
  | [], p => by simp
  | b :: bs, p => by
      simp only [List.foldl_cons, foldl_count_steps step bs, List.length_cons]
      simp only [Prod.mk.injEq]
      exact ⟨trivial, by omega⟩

lemma train_count_general {S B : Type} (step : S → B → S) (trainloader : List B) :
    ∀ (epochs : Nat) (p : S × Nat),
      train (fun q b => (step q.1 b, q.2 + 1)) trainloader epochs p
        = (train step trainloader epochs p.1, p.2 + epochs * trainloader.length)
  | 0, p => by simp [train]
  | (n + 1), p => by
      rw [train_succ, train_succ, train_count_general step trainloader n p,
        foldl_count_steps step trainloader]
      simp only [Prod.mk.injEq]
      exact ⟨trivial, by ring⟩

/-- Claim C9: train performs exactly epochs full passes over the training
loader, one optimizer step per batch, unconditionally: instrumenting the
per-batch step with a counter shows exactly epochs * (number of batches)
steps are executed while the trained state is unchanged by the
instrumentation, and train with epochs = 0 performs no step and returns the
network untouched. -/
theorem train_step_count {S B : Type} (step : S → B → S) (trainloader : List B)
    (epochs : Nat) (net : S) :
    (train (fun q b => (step q.1 b, q.2 + 1)) trainloader epochs (net, 0)).2
        = epochs * trainloader.length
    ∧ (train (fun q b => (step q.1 b, q.2 + 1)) trainloader epochs (net, 0)).1
        = train step trainloader epochs net
    ∧ train step trainloader 0 net = net := by
  refine ⟨?_, ?_, rfl⟩
  · rw [train_count_general step trainloader epochs (net, 0)]
    simp
  · rw [train_count_general step trainloader epochs (net, 0)]

/-- A two-class toy network over Nat-coded images: image 0 gets logits
favouring class 0, any other image gets logits favouring class 1. -/
def net01 : Nat → List ℚ :=
  fun i => if i = 0 then [1, 0] else [0, 1]

/-- A trivial criterion assigning loss 0 to every batch. -/
def crit0 : List (List ℚ) → List Nat → ℚ :=
  fun _ _ => 0

/-- Claim C4: test on an empty loader (zero batches) reaches the division
correct/total with total = 0 and fails with an unhandled ZeroDivisionError
(modelled as none, no guarded or default result), while any loader yielding
at least one batch with at least one label makes the division well-defined
and test return a result. -/
theorem test_empty_loader_unguarded {I : Type} (net : I → List ℚ)
    (criterion : List (List ℚ) → List Nat → ℚ) :
    test net criterion ([] : List (List (I × Nat))) = none
    ∧ ∀ testloader : List (List (I × Nat)),
        (∃ b ∈ testloader, b ≠ []) → (test net criterion testloader).isSome := by
  constructor
  · rfl
  · intro testloader h
    obtain ⟨b, hb, hne⟩ := h
    have h1 : 0 < b.length := List.length_pos.mpr hne
    have h2 : b.length ≤ loaderTotal testloader :=
      List.le_sum_of_mem (List.mem_map_of_mem List.length hb)
    rw [test_spec net criterion testloader (by omega)]
    rfl

/-- Witness for C4 at a concrete loader: the empty loader fails and the
one-sample loader returns a result. -/
theorem test_empty_loader_unguarded_witness :
    test net01 crit0 [] = none
    ∧ (∃ b ∈ [[((0 : Nat), (0 : Nat))]], b ≠ [])
    ∧ (test net01 crit0 [[((0 : Nat), (0 : Nat))]]).isSome := by
  refine ⟨(test_empty_loader_unguarded net01 crit0).1, by decide,
    (test_empty_loader_unguarded net01 crit0).2 _ (by decide)⟩

/-- Counterexample to C6 as stated: the loader consisting of one empty batch
is a non-empty loader, yet test raises on the division 0/0 instead of
returning a (loss, accuracy) pair. -/
theorem test_nonempty_loader_empty_batch_fails :
    ([[]] : List (List (Nat × Nat))) ≠ []
    ∧ test net01 crit0 [[]] = none := by
  exact ⟨by decide, by decide⟩

/-- Claim C6 (amended: the loader must carry at least one sample, not merely
one batch): test performs its single pass and returns the pair of the summed
per-batch criterion losses and the fraction of samples whose argmax
prediction equals their label. -/
theorem test_closed_form {I : Type} (net : I → List ℚ)
    (criterion : List (List ℚ) → List Nat → ℚ)
    (testloader : List (List (I × Nat))) (h : 0 < loaderTotal testloader) :
    test net criterion testloader
      = some (loaderLoss net criterion testloader,
          (loaderCorrect net testloader : ℚ) / (loaderTotal testloader : ℚ)) :=
  test_spec net criterion testloader h

/-- Witness for C6 on a concrete one-sample loader, with the closed form
fully evaluated. -/
theorem test_closed_form_witness :
    0 < loaderTotal [[((0 : Nat), (0 : Nat))]]
    ∧ test net01 crit0 [[((0 : Nat), (0 : Nat))]] = some (0, 1) := by
  refine ⟨by decide, ?_⟩
  rw [test_closed_form net01 crit0 [[((0 : Nat), (0 : Nat))]] (by decide)]
  have hc : loaderCorrect net01 [[((0 : Nat), (0 : Nat))]] = 1 := by decide
  have ht : loaderTotal [[((0 : Nat), (0 : Nat))]] = 1 := by decide
  have hl : loaderLoss net01 crit0 [[((0 : Nat), (0 : Nat))]] = 0 := by
    simp [loaderLoss, batchLoss, crit0]
  rw [hc, ht, hl]
  norm_num

lemma batchCorrect_of_const {I : Type} (net : I → List ℚ) (b : List (I × Nat))
    (c p : Nat) (hlab : ∀ s ∈ b, s.2 = c)
    (hpred : ∀ s ∈ b, argmax (net s.1) = p) :
    batchCorrect net b = if p = c then b.length else 0 := by
  unfold batchCorrect
  by_cases hpc : p = c
  · rw [if_pos hpc]
    refine List.countP_eq_length.mpr ?_
    intro s hs
    simp [hpred s hs, hlab s hs, hpc]
  · rw [if_neg hpc]
    refine List.countP_eq_zero.mpr ?_
    intro s hs
    simp [hpred s hs, hlab s hs, hpc]

lemma loaderCorrect_of_const {I : Type} (net : I → List ℚ) (c p : Nat) :
    ∀ (testloader : List (List (I × Nat))),
      (∀ b ∈ testloader, ∀ s ∈ b, s.2 = c) →
      (∀ b ∈ testloader, ∀ s ∈ b, argmax (net s.1) = p) →
      loaderCorrect net testloader
        = if p = c then loaderTotal testloader else 0
  | [], _, _ => by simp [loaderCorrect, loaderTotal]
  | b :: bs, hlab, hpred => by
      have ih := loaderCorrect_of_const net c p bs
        (fun x hx => hlab x (List.mem_cons_of_mem b hx))
        (fun x hx => hpred x (List.mem_cons_of_mem b hx))
      simp only [loaderCorrect, loaderTotal, List.map_cons, List.sum_cons] at ih ⊢
      rw [batchCorrect_of_const net b c p (hlab b (List.mem_cons_self b bs))
        (hpred b (List.mem_cons_self b bs)), ih]
      by_cases hpc : p = c <;> simp [hpc]

/-- Claim C7 (amended: beyond all samples carrying one same label, the
network's predicted class must also be constant over the samples; without
that the accuracy can be strictly between 0 and 1): then test returns an
accuracy that is exactly 0 or exactly 1. -/
theorem test_single_class_constant_prediction {I : Type} (net : I → List ℚ)
    (criterion : List (List ℚ) → List Nat → ℚ)
    (testloader : List (List (I × Nat))) (c p : Nat)
    (hlab : ∀ b ∈ testloader, ∀ s ∈ b, s.2 = c)
    (hpred : ∀ b ∈ testloader, ∀ s ∈ b, argmax (net s.1) = p)
    (h : 0 < loaderTotal testloader) :
    ∃ l a, test net criterion testloader = some (l, a) ∧ (a = 0 ∨ a = 1) := by
  refine ⟨loaderLoss net criterion testloader,
    (loaderCorrect net testloader : ℚ) / (loaderTotal testloader : ℚ),
    test_spec net criterion testloader h, ?_⟩
  rw [loaderCorrect_of_const net c p testloader hlab hpred]
  by_cases hpc : p = c
  · right
    rw [if_pos hpc]
    refine div_self ?_
    exact Nat.cast_ne_zero.mpr (by omega)
  · left
    rw [if_neg hpc]
    simp

/-- Witness for C7 on a concrete single-label, constant-prediction loader. -/
theorem test_single_class_constant_prediction_witness :
    (∀ b ∈ [[((0 : Nat), (0 : Nat))]], ∀ s ∈ b, s.2 = 0)
    ∧ (∀ b ∈ [[((0 : Nat), (0 : Nat))]], ∀ s ∈ b, argmax (net01 s.1) = 0)
    ∧ 0 < loaderTotal [[((0 : Nat), (0 : Nat))]]
    ∧ ∃ l a, test net01 crit0 [[((0 : Nat), (0 : Nat))]] = some (l, a)
        ∧ (a = 0 ∨ a = 1) := by
  refine ⟨by decide, by decide, by decide,
    test_single_class_constant_prediction net01 crit0 _ 0 0
      (by decide) (by decide) (by decide)⟩

/-- Counterexample to C7 as stated: a one-batch loader whose two samples both
carry label 0 while the network predicts class 0 on the first and class 1 on
the second; test returns accuracy one half, which is neither 0 nor 1. -/
theorem test_single_class_fractional_accuracy :
    (∀ b ∈ [[((0 : Nat), (0 : Nat)), ((1 : Nat), (0 : Nat))]], ∀ s ∈ b, s.2 = 0)
    ∧ test net01 crit0 [[((0 : Nat), (0 : Nat)), ((1 : Nat), (0 : Nat))]]
        = some (0, 1 / 2)
    ∧ ¬((1 : ℚ) / 2 = 0 ∨ (1 : ℚ) / 2 = 1) := by
  refine ⟨by decide, ?_, by norm_num⟩
  rw [test_spec net01 crit0 [[((0 : Nat), (0 : Nat)), ((1 : Nat), (0 : Nat))]]
    (by decide)]
  have hc : loaderCorrect net01 [[((0 : Nat), (0 : Nat)), ((1 : Nat), (0 : Nat))]]
      = 1 := by decide
  have ht : loaderTotal [[((0 : Nat), (0 : Nat)), ((1 : Nat), (0 : Nat))]]
      = 2 := by decide
  have hl : loaderLoss net01 crit0 [[((0 : Nat), (0 : Nat)), ((1 : Nat), (0 : Nat))]]
      = 0 := by
    simp [loaderLoss, batchLoss, crit0]
  rw [hc, ht, hl]
  norm_num

/-- A numpy weight array as observed by the strict state-dict load: a shape
and a numeric payload (the payload is carried but never inspected by this
code; rationals stand in for the float entries). -/
structure NDArray where
  shape : List Nat
  data : List ℚ
deriving DecidableEq

/-- numpy atleast_1d composed with torch.tensor as applied to each supplied
weight (evaluate, publications utils.py line 173, experiments line 130): a
zero-dimensional array becomes one-dimensional with a single entry, any other
array is unchanged. -/
def atleast1d (a : NDArray) : NDArray :=
  if a.shape = [] then ⟨[1], a.data⟩ else a

/-- The state dict built by evaluate (publications utils.py lines 171-176,
experiments lines 128-133): a dict comprehension over the zip of the model's
parameter names with the supplied weights; zip truncates at the shorter
sequence and the parameter names are pairwise distinct, so the dict is the
zipped association list in order. -/
def buildStateDict (keys : List String) (weights : List NDArray) :
    List (String × NDArray) :=
  (keys.zip weights).map (fun kv => (kv.1, atleast1d kv.2))

/-- torch load_state_dict with strict set to True, per its documented
behaviour (the spec: strict loading fails hard on any name or shape
mismatch): the load succeeds exactly when the provided dict has no unexpected
key, no model key is missing, and every provided tensor's shape equals the
shape of the model parameter of that name. The model is its list of
state-dict entries (name, shape). -/
def load_state_dict_ok (modelSD : List (String × List Nat))
    (sd : List (String × NDArray)) : Bool :=
  sd.all (fun kv => modelSD.any (fun q => q.1 == kv.1))
    && modelSD.all (fun q => sd.any (fun kv => kv.1 == q.1))
    && modelSD.all (fun q => sd.all (fun kv => !(kv.1 == q.1) || (kv.2.shape == q.2)))

/-- The centralized evaluation callback evaluate returned by get_cifar_eval_fn
(publications utils.py lines 166-185, experiments lines 122-143): builds the
state dict by zipping the model's parameter names against the weights, loads
it strictly (none models the raised load error), and otherwise runs test on
the loaded network over the closed-over test set; runTest abstracts that run
(the resnet18 construction, the CIFAR test set and the forward passes are the
external compute engine), applied to the loaded state dict. -/
def evaluate {R : Type} (modelSD : List (String × List Nat))
    (runTest : List (String × NDArray) → R) (weights : List NDArray) :
    Option R :=
  let sd := buildStateDict (modelSD.map Prod.fst) weights
  if load_state_dict_ok modelSD sd then some (runTest sd) else none

lemma buildStateDict_map_fst :
    ∀ (keys : List String) (ws : List NDArray),
      (buildStateDict keys ws).map Prod.fst = keys.take ws.length
  | [], ws => by simp [buildStateDict]
  | _ :: _, [] => by simp [buildStateDict]
  | k :: ks, w :: ws => by
      have hcons : buildStateDict (k :: ks) (w :: ws)
          = (k, atleast1d w) :: buildStateDict ks ws := rfl
      rw [hcons, List.map_cons, buildStateDict_map_fst ks ws]
      rfl

lemma zip_truncate {α β : Type} :
    ∀ (l₁ : List α) (l₂ : List β), l₁.zip l₂ = l₁.zip (l₂.take l₁.length)
  | [], _ => by simp
  | _ :: _, [] => by simp
  | a :: l₁, b :: l₂ => by
      simp only [List.zip_cons_cons, List.length_cons, List.take_succ_cons]
      rw [← zip_truncate l₁ l₂]

/-- Counterexample to C3 as stated: a weights sequence longer than the model's
parameter enumeration (two weights against a one-parameter model, the first
of matching shape) does not make the callback fail; the zip truncates, the
strict load succeeds and a result is returned. -/
theorem evaluate_longer_weights_succeeds :
    (2 : Nat) ≠ ([(("w" : String), [(1 : Nat)])]).length
    ∧ evaluate [(("w" : String), [(1 : Nat)])] (fun _ => (0 : Nat))
        [⟨[1], [0]⟩, ⟨[1], [0]⟩] = some 0 := by
  exact ⟨by decide, by decide⟩

/-- Claim C3 (amended: a weights sequence strictly shorter than the model's
parameter enumeration makes the strict load raise, so the callback fails
rather than returning a result; a strictly longer sequence can succeed, see
the counterexample): with pairwise-distinct parameter names, fewer weights
than parameters leave some parameter name missing from the zipped dict. -/
theorem evaluate_fails_of_shorter_weights {R : Type}
    (modelSD : List (String × List Nat))
    (runTest : List (String × NDArray) → R) (weights : List NDArray)
    (hnd : (modelSD.map Prod.fst).Nodup)
    (hlen : weights.length < modelSD.length) :
    evaluate modelSD runTest weights = none := by
  have hfalse : load_state_dict_ok modelSD
      (buildStateDict (modelSD.map Prod.fst) weights) = false := by
    by_contra hne
    have hok : load_state_dict_ok modelSD
        (buildStateDict (modelSD.map Prod.fst) weights) = true :=
      eq_true_of_ne_false hne
    unfold load_state_dict_ok at hok
    rw [Bool.and_assoc, Bool.and_eq_true, Bool.and_eq_true] at hok
    have hmiss := hok.2.1
    rw [List.all_eq_true] at hmiss
    have hsub : modelSD.map Prod.fst
        ⊆ (buildStateDict (modelSD.map Prod.fst) weights).map Prod.fst := by
      intro x hx
      obtain ⟨q, hq, hqx⟩ := List.mem_map.mp hx
      have h1 := hmiss q hq
      rw [List.any_eq_true] at h1
      obtain ⟨kv, hkv, hkvx⟩ := h1
      rw [beq_iff_eq] at hkvx
      have h2 : kv.1 ∈ (buildStateDict (modelSD.map Prod.fst) weights).map
          Prod.fst := List.mem_map_of_mem Prod.fst hkv
      rw [hkvx, hqx] at h2
      exact h2
    rw [buildStateDict_map_fst] at hsub
    have hfin : (modelSD.map Prod.fst).toFinset
        ⊆ ((modelSD.map Prod.fst).take weights.length).toFinset := by
      intro a ha
      rw [List.mem_toFinset] at ha ⊢
      exact hsub ha
    have hc1 : (modelSD.map Prod.fst).toFinset.card
        = (modelSD.map Prod.fst).length :=
      List.toFinset_card_of_nodup hnd
    have hc2 : ((modelSD.map Prod.fst).take weights.length).toFinset.card
        ≤ ((modelSD.map Prod.fst).take weights.length).length :=
      List.toFinset_card_le _
    have hc3 := Finset.card_le_card hfin
    have hc4 : ((modelSD.map Prod.fst).take weights.length).length
        ≤ weights.length := List.length_take_le _ _
    rw [List.length_map] at hc1
    omega
  simp [evaluate, hfalse]

/-- Witness for C3 at a concrete model and weights sequence: one weight
against a two-parameter model fails. -/
theorem evaluate_fails_of_shorter_weights_witness :
    ([(("a" : String), [(1 : Nat)]), (("b" : String), [(1 : Nat)])].map
        Prod.fst).Nodup
    ∧ (1 : Nat) < 2
    ∧ evaluate [(("a" : String), [(1 : Nat)]), (("b" : String), [(1 : Nat)])]
        (fun _ => (0 : Nat)) [⟨[1], [0]⟩] = none := by
  refine ⟨by decide, by decide,
    evaluate_fails_of_shorter_weights _ _ _ (by decide) (by decide)⟩

/-- Counterexample to C5 as stated: with a strictly longer weights sequence
the strict load does not always succeed; if a shape among the first k weights
mismatches the model, the load raises even though the extra trailing weights
are ignored. -/
theorem evaluate_longer_weights_shape_mismatch_fails :
    ([(("w" : String), [(2 : Nat)])]).length < 2
    ∧ evaluate [(("w" : String), [(2 : Nat)])] (fun _ => (0 : Nat))
        [⟨[3], [0]⟩, ⟨[1], [0]⟩] = none := by
  exact ⟨by decide, by decide⟩

/-- Claim C5 (amended: for every weights sequence strictly longer than the
model's parameter enumeration the callback behaves exactly as if only the
first k weights had been supplied, the extra trailing weights being silently
ignored by the truncating zip; the strict load therefore succeeds precisely
when it would succeed on the truncated sequence, not unconditionally). -/
theorem evaluate_ignores_extra_weights {R : Type}
    (modelSD : List (String × List Nat))
    (runTest : List (String × NDArray) → R) (weights : List NDArray)
    (hlen : modelSD.length < weights.length) :
    evaluate modelSD runTest weights
      = evaluate modelSD runTest (weights.take modelSD.length) := by
  have hzip : buildStateDict (modelSD.map Prod.fst) weights
      = buildStateDict (modelSD.map Prod.fst) (weights.take modelSD.length) := by
    unfold buildStateDict
    rw [zip_truncate (modelSD.map Prod.fst) weights, List.length_map]
  unfold evaluate
  rw [hzip]

/-- Witness for C5 at a concrete model and weights sequence: two weights
against a one-parameter model evaluate as the truncated single weight does. -/
theorem evaluate_ignores_extra_weights_witness :
    ([(("w" : String), [(1 : Nat)])]).length < 2
    ∧ evaluate [(("w" : String), [(1 : Nat)])] (fun _ => (0 : Nat))
        [⟨[1], [0]⟩, ⟨[5], [7]⟩]
      = evaluate [(("w" : String), [(1 : Nat)])] (fun _ => (0 : Nat))
        ([⟨[1], [0]⟩, ⟨[5], [7]⟩].take
          ([(("w" : String), [(1 : Nat)])]).length) := by
  exact ⟨by decide, evaluate_ignores_extra_weights _ _ _ (by decide)⟩

/-- Python sequence repetition: a tuple multiplied by n concatenates n copies
of it; this is the meaning of y * 100 when y is the tuple produced by zip. -/
def pySeqMul {α : Type} (l : List α) (n : Nat) : List α :=
  (List.replicate n l).join

/-- plot_metric_from_history (publications utils.py lines 223-237, experiments
lines 178-192, textually identical): unpacks the selected centralized-metric
history into round numbers x and metric values y (the unpacking raises on an
empty history, modelled as none) and reifies the matplotlib calls as the data
they receive: the x passed to plt.plot, the y argument y * 100 — which is
Python tuple repetition, y being a tuple — the axhline level
expected_maximum, and the savefig path. -/
def plot_metric_from_history (metrics_centralized : List (Int × ℚ))
    (expected_maximum : ℚ) (save_path : String) :
    Option ((List Int × List ℚ) × (ℚ × String)) :=
  match metrics_centralized with
  | [] => none
  | ms => some ((ms.map Prod.fst, pySeqMul (ms.map Prod.snd) 100),
      (expected_maximum, save_path))

/-- Claim C2 fails on the code: for the one-point history (round 1, value one
half) the y argument handed to the plot call is the hundredfold tuple
repetition of the values — a list of length 100 — and not the values each
scaled by 100 paired one-to-one with the single round number. -/
theorem plot_y_is_tuple_repetition :
    plot_metric_from_history [((1 : Int), (1 : ℚ) / 2)] 80 "plot.png"
      = some (([1], pySeqMul [(1 : ℚ) / 2] 100), (80, "plot.png"))
    ∧ pySeqMul [(1 : ℚ) / 2] 100 ≠ [((50 : ℚ))]
    ∧ (pySeqMul [(1 : ℚ) / 2] 100).length = 100
    ∧ ([((1 : Int), (1 : ℚ) / 2)].map Prod.fst).length = 1 := by
  have hlen : (pySeqMul [(1 : ℚ) / 2] 100).length = 100 := by
    simp [pySeqMul]
  refine ⟨rfl, ?_, hlen, rfl⟩
  intro h
  have h1 := congrArg List.length h
  rw [hlen] at h1
  simp at h1

/-- One iteration of the save loop of partition_and_save: the per-client
directory created with mkdir and the file written inside it with the
partition as content. -/
structure SaveOp (P : Type) where
  dir : List String
  file : List String
  content : P
deriving DecidableEq

/-- Modelled from the spec: create_lda_partitions
(flwr.dataset.utils.common) is code of this repository that is not under src;
per the spec contract it produces the requested number of partitions whose
per-class proportions follow a Dirichlet distribution with the given
concentration (reusing an explicitly supplied prior distribution instead of
sampling a new one) and returns the distribution actually used. It enters
the embedding as an abstract function from (dataset, optional prior
distribution, partition count, concentration) to (partition list,
distribution used); theorems needing its partition-count contract take that
count as a hypothesis. -/
def LdaPartitioner (X D P : Type) : Type :=
  X → Option D → Nat → PyFloat → List P × D

/-- partition_and_save (publications utils.py lines 73-93, experiments lines
43-63, textually identical): calls create_lda_partitions, then for each
(idx, partition) of the enumeration creates the directory fed_dir/idx and
saves the partition to fed_dir/idx/train.pt, and returns the distribution;
the loop's filesystem effects are reified as the returned list of save
operations. -/
def partition_and_save {X D P : Type}
    (create_lda_partitions : LdaPartitioner X D P) (dataset : X)
    (fed_dir : List String) (dirichlet_dist : Option D)
    (num_partitions : Nat) (concentration : PyFloat) :
    List (SaveOp P) × D :=
  let r := create_lda_partitions dataset dirichlet_dist num_partitions
    concentration
  (r.1.enum.map (fun ip =>
      ⟨fed_dir ++ [toString ip.1], fed_dir ++ [toString ip.1, "train.pt"],
        ip.2⟩),
    r.2)

/-- gen_cifar10_partitions (publications utils.py lines 188-212): builds
fed_dir as path / dataset_name / partitions / str(num_total_clients) /
two-decimal-format(lda_concentration), downloads the CIFAR10 trainset
(external; the trainset parameter), calls partition_and_save with no prior
distribution, and returns fed_dir. -/
def gen_cifar10_partitions {X D P : Type}
    (create_lda_partitions : LdaPartitioner X D P) (trainset : X)
    (path_original_dataset : List String) (dataset_name : String)
    (num_total_clients : Nat) (lda_concentration : PyFloat) :
    (List (SaveOp P) × D) × List String :=
  let fed_dir := path_original_dataset
    ++ [dataset_name, "partitions", toString num_total_clients,
      lda_concentration.fmt2f]
  (partition_and_save create_lda_partitions trainset fed_dir none
      num_total_clients lda_concentration,
    fed_dir)

/-- Claim C10: partition_and_save persists partition idx to
fed_dir/idx/train.pt after creating the per-client directory fed_dir/idx,
for every idx below the partition count, and returns the distribution the
partitioner actually used; and the publications gen_cifar10_partitions
constructs fed_dir so the path encodes the dataset name, the client count
and the concentration formatted to two decimals. -/
theorem partition_and_save_layout {X D P : Type}
    (create_lda_partitions : LdaPartitioner X D P) (dataset : X)
    (fed_dir : List String) (dirichlet_dist : Option D)
    (num_partitions : Nat) (concentration : PyFloat)
    (h : (create_lda_partitions dataset dirichlet_dist num_partitions
        concentration).1.length = num_partitions) :
    (partition_and_save create_lda_partitions dataset fed_dir dirichlet_dist
          num_partitions concentration).2
        = (create_lda_partitions dataset dirichlet_dist num_partitions
            concentration).2
    ∧ (partition_and_save create_lda_partitions dataset fed_dir dirichlet_dist
          num_partitions concentration).1.length = num_partitions
    ∧ (∀ idx, idx < num_partitions →
        (partition_and_save create_lda_partitions dataset fed_dir
            dirichlet_dist num_partitions concentration).1[idx]?
          = ((create_lda_partitions dataset dirichlet_dist num_partitions
                concentration).1[idx]?).map
              (fun part =>
                ⟨fed_dir ++ [toString idx],
                  fed_dir ++ [toString idx, "train.pt"], part⟩))
    ∧ ∀ (path : List String) (ds_name : String),
        (gen_cifar10_partitions create_lda_partitions dataset path ds_name
            num_partitions concentration).2
          = path ++ [ds_name, "partitions", toString num_partitions,
              concentration.fmt2f] := by
  refine ⟨rfl, ?_, ?_, fun path ds_name => rfl⟩
  · simp [partition_and_save, h]
  · intro idx hidx
    cases hget : (create_lda_partitions dataset dirichlet_dist num_partitions
        concentration).1[idx]? with
    | none => simp [partition_and_save, List.getElem?_enum, hget]
    | some part => simp [partition_and_save, List.getElem?_enum, hget]

/-- A concrete partitioner instance for the witness: the partitions are
0 .. n-1 and the distribution value is 7. -/
def clpW : LdaPartitioner Nat Nat Nat :=
  fun _ _ n _ => (List.range n, 7)

/-- Witness for C10 at a concrete partitioner, two partitions and the
concentration 0.01. -/
theorem partition_and_save_layout_witness :
    (clpW 0 none 2 lrPoint01).1.length = 2
    ∧ (partition_and_save clpW 0 ["data"] none 2 lrPoint01).2 = 7
    ∧ (partition_and_save clpW 0 ["data"] none 2 lrPoint01).1.length = 2
    ∧ (partition_and_save clpW 0 ["data"] none 2 lrPoint01).1[1]?
        = some ⟨["data", "1"], ["data", "1", "train.pt"], 1⟩
    ∧ (gen_cifar10_partitions clpW 0 ["root"] "cifar-10" 2 lrPoint01).2
        = ["root", "cifar-10", "partitions", "2", "0.01"] := by
  have h := partition_and_save_layout clpW 0 ["data"] none 2 lrPoint01
    (by decide)
  refine ⟨by decide, h.1, h.2.1, ?_, ?_⟩
  · rw [h.2.2.1 1 (by decide)]
    decide
  · rw [h.2.2.2 ["root"] "cifar-10"]
    decide

/-- Claim C1: gen_on_fit_config_fn (publications) applied to (2, 32, 0.01)
yields a callback whose round-5 config maps epochs to the native int 2 and
batch_size to the native int 32; gen_fit_config_fn (experiments), however,
returns None instead of a callback — its fit_config closure, which would map
epochs to the string 2 and batch_size to the string 32, is never returned. -/
theorem gen_fit_config_fn_returns_none :
    gen_fit_config_fn 2 32 lrPoint01 = none
    ∧ List.lookup "epochs" (gen_on_fit_config_fn 2 32 lrPoint01 5)
        = some (Scalar.int 2)
    ∧ List.lookup "batch_size" (gen_on_fit_config_fn 2 32 lrPoint01 5)
        = some (Scalar.int 32)
    ∧ List.lookup "epochs" (fit_config 2 32 lrPoint01 5)
        = some (Scalar.str "2")
    ∧ List.lookup "batch_size" (fit_config 2 32 lrPoint01 5)
        = some (Scalar.str "32") := by
  refine ⟨rfl, by decide, by decide, by decide, by decide⟩

/-- Counterexample to C8 as stated: the experiments variant produces no
per-round mapping at all — its generator returns None, not a callback —
while the publications variant does produce one. -/
theorem gen_fit_config_fn_produces_no_mapping :
    gen_fit_config_fn 1 2 lrHalf = none
    ∧ gen_on_fit_config_fn 1 2 lrHalf 3 ≠ [] := by
  exact ⟨rfl, by decide⟩

/-- Claim C8 (amended: the two inner config builders construct mappings with
the same four keys in the same order, the experiments values being exactly
the Python str() encodings of the publications values; the experiments
generator itself never returns its builder — see the counterexample — so the
equivalence holds of the mappings the two variants build, not of the
generator results). -/
theorem fit_config_str_encodes_on_fit_config (epochs_per_round : Int)
    (batch_size : Int) (client_learning_rate : PyFloat) (rnd : Int) :
    fit_config epochs_per_round batch_size client_learning_rate rnd
      = (on_fit_config epochs_per_round batch_size client_learning_rate
            rnd).map (fun kv => (kv.1, Scalar.str kv.2.pyStr))
    ∧ (fit_config epochs_per_round batch_size client_learning_rate rnd).map
          Prod.fst
      = (on_fit_config epochs_per_round batch_size client_learning_rate
            rnd).map Prod.fst := by
  exact ⟨rfl, rfl⟩
